import Mathlib

/-
  Verification of the Amazon Braket examples repository
  (notebook src/braket_features/Allocating_Qubits_on_QPU_Devices.ipynb).

  The notebook's own code is a straight-line sequence of statements:
  parameter entry, device instantiation, fluent circuit construction,
  task submission via device.run, status checks via state(), and result
  printing.  We embed that statement sequence as a deep AST (`Stmt`,
  `notebook`), the SDK's fluent circuit builder as `Circuit`, and give an
  interpreter (`execStmt` / `execProg`) whose external-SDK responses are the
  ones recorded in the notebook's saved cell outputs (task states,
  measurement counters, compiled programs, the connectivity graph).
-/

set_option maxRecDepth 4000

/-- Rotation angles appearing in the notebook's rz calls: np.pi/2 and 1.2. -/
inductive Angle
  | halfPi
  | onePointTwo
deriving DecidableEq, Repr

/-- Gate-application records, one per fluent builder call in the notebook
(h, cnot, rz, x). -/
inductive Gate
  | h (q : Nat)
  | cnot (control target : Nat)
  | rz (q : Nat) (angle : Angle)
  | x (q : Nat)
deriving DecidableEq, Repr

/-- A circuit: an ordered sequence of gate-application records, as built by
the SDK's fluent API (`Circuit()` then chained method calls). -/
structure Circuit where
  gates : List Gate
deriving DecidableEq, Repr

/-- The SDK constructor `Circuit()`: an empty gate sequence. -/
def Circuit.init : Circuit := ⟨[]⟩

/-- Fluent builder method `circuit.h(q)`: appends one Hadamard record and
returns the circuit. -/
def Circuit.h (c : Circuit) (q : Nat) : Circuit := ⟨c.gates ++ [Gate.h q]⟩

/-- Fluent builder method `circuit.cnot(a,b)`: appends one CNOT record and
returns the circuit. -/
def Circuit.cnot (c : Circuit) (a b : Nat) : Circuit := ⟨c.gates ++ [Gate.cnot a b]⟩

/-- Fluent builder method `circuit.rz(q, angle)`: appends one RZ record and
returns the circuit. -/
def Circuit.rz (c : Circuit) (q : Nat) (a : Angle) : Circuit := ⟨c.gates ++ [Gate.rz q a]⟩

/-- Fluent builder method `circuit.x(q)`: appends one X record and returns
the circuit. -/
def Circuit.x (c : Circuit) (q : Nat) : Circuit := ⟨c.gates ++ [Gate.x q]⟩

/-- Qubit indices touched by a single gate record. -/
def Gate.qubits : Gate → List Nat
  | .h q => [q]
  | .cnot a b => [a, b]
  | .rz q _ => [q]
  | .x q => [q]

/-- The distinct qubit indices used by a circuit, in first-use order. -/
def Circuit.qubits (c : Circuit) : List Nat :=
  ((c.gates.map Gate.qubits).flatten).dedup

/-- Rendering of an angle, used by the diagram model. -/
def Angle.text : Angle → String
  | .halfPi => "pi/2"
  | .onePointTwo => "1.2"

/-- Rendering of one gate record. -/
def Gate.text : Gate → String
  | .h q => "h " ++ toString q
  | .cnot a b => "cnot " ++ toString a ++ " " ++ toString b
  | .rz q a => "rz " ++ toString q ++ " " ++ Angle.text a
  | .x q => "x " ++ toString q

/-- Model of the SDK-owned ASCII diagram produced by `print(circuit)`: one
line per gate record.  The exact art is owned by the external SDK; on the
notebook's circuits this rendering is, like the recorded output, non-empty. -/
def Circuit.diagram (c : Circuit) : String :=
  String.intercalate "\n" (c.gates.map Gate.text)

/-- One fluent builder call in a method chain such as
`circuit.h(0).cnot(0,2).cnot(0,4)`. -/
inductive BuilderCall
  | h (q : Nat)
  | cnot (control target : Nat)
  | rz (q : Nat) (angle : Angle)
  | x (q : Nat)
deriving DecidableEq, Repr

/-- Dispatch of one builder call to the corresponding fluent method. -/
def applyCall (c : Circuit) : BuilderCall → Circuit
  | .h q => c.h q
  | .cnot a b => c.cnot a b
  | .rz q a => c.rz q a
  | .x q => c.x q

/-- A whole method chain, applied left to right as Python evaluates it. -/
def applyCalls (c : Circuit) : List BuilderCall → Circuit
  | [] => c
  | call :: rest => applyCalls (applyCall c call) rest

/-- Statements of the notebook's code cells.  The constructors
`tryExcept`, `ifStmt`, `whileLoop`, `assertStmt` and `taskCancel` cover the
error-handling / control / task-mutation forms Python offers; the notebook
uses none of them, which is what several claims assert. -/
inductive Stmt
  | importStmt (module : String) (names : List String)
  | assignStr (lhs lit : String)
  | assignPair (lhs fstVar sndVar : String)
  | assignDevice (lhs arn : String)
  | assignAttr (lhs obj : String) (path : List String)
  | printConnectivity (deviceVar graphVar : String)
  | assignNewCircuit (lhs : String)
  | buildCircuit (var : String) (calls : List BuilderCall)
  | printCircuit (var : String)
  | assignRun (lhs deviceVar circuitVar s3Var : String) (shots : Nat)
      (disableQubitRewiring : Bool)
  | printState (taskVar : String)
  | assignResult (lhs taskVar : String)
  | assignCounts (lhs resultVar : String)
  | printCounts (countsVar : String)
  | printCompiled (resultVar : String)
  | tryExcept (body handler : List Stmt)
  | ifStmt (cond : String) (thenBody elseBody : List Stmt)
  | whileLoop (cond : String) (body : List Stmt)
  | assertStmt (cond : String)
  | taskCancel (taskVar : String)

/-- Device ARN entered for the Rigetti Aspen-8 device. -/
def rigettiArn : String := "arn:aws:braket:::device/qpu/rigetti/Aspen-8"

/-- Device ARN entered for the IonQ device. -/
def ionqArn : String := "arn:aws:braket:::device/qpu/ionq/ionQdevice"

/-- The notebook's code cells, transcribed statement by statement in cell
order from src/braket_features/Allocating_Qubits_on_QPU_Devices.ipynb. -/
def notebook : List Stmt := [
  -- cell 1: imports
  .importStmt "braket.aws" ["AwsDevice"],
  .importStmt "braket.circuits" ["Circuit"],
  .importStmt "numpy" ["np"],
  -- cell 2: parameter entry
  .assignStr "my_bucket" "amazon-braket-Your-Bucket-Name",
  .assignStr "my_prefix" "Your-Folder-Name",
  .assignPair "s3_folder" "my_bucket" "my_prefix",
  -- cell 3: Rigetti device and connectivity graph
  .assignDevice "device" "arn:aws:braket:::device/qpu/rigetti/Aspen-8",
  .assignAttr "connectivity_graph" "device"
      ["properties", "paradigm", "connectivity", "connectivityGraph"],
  .printConnectivity "device" "connectivity_graph",
  -- cell 4: GHZ circuit on qubits 0, 2, 4 and first submission
  .assignNewCircuit "circuit",
  .buildCircuit "circuit" [.h 0, .cnot 0 2, .cnot 0 4],
  .printCircuit "circuit",
  .assignRun "rigetti_rewiring" "device" "circuit" "s3_folder" 100 false,
  -- cell 5: status check
  .printState "rigetti_rewiring",
  -- cell 6: result fetch and prints
  .assignResult "result" "rigetti_rewiring",
  .assignCounts "counts" "result",
  .printCounts "counts",
  .printCompiled "result",
  -- cell 7: circuit on qubits 0, 1, 2, 3 and second submission
  .assignNewCircuit "circuit",
  .buildCircuit "circuit" [.rz 0 .halfPi, .cnot 1 2, .x 3],
  .printCircuit "circuit",
  .assignRun "rigetti_task" "device" "circuit" "s3_folder" 100 true,
  -- cell 8: status check
  .printState "rigetti_task",
  -- cell 9: result fetch and prints
  .assignResult "result" "rigetti_task",
  .assignCounts "counts" "result",
  .printCounts "counts",
  .printCompiled "result",
  -- cell 10: IonQ circuit, IonQ device, third submission
  .assignNewCircuit "circuit",
  .buildCircuit "circuit" [.h 0, .cnot 0 2, .rz 1 .onePointTwo],
  .assignDevice "device" "arn:aws:braket:::device/qpu/ionq/ionQdevice",
  .assignRun "ionq_task" "device" "circuit" "s3_folder" 100 false,
  -- cell 11: status check
  .printState "ionq_task",
  -- cell 12: result fetch and print
  .assignResult "result" "ionq_task",
  .assignCounts "counts" "result",
  .printCounts "counts"
]

/-
  Recorded external-SDK responses.  These values are not code of the
  repository: they are the responses of the external SDK and cloud service
  exactly as recorded in the notebook's saved cell outputs, against which the
  notebook's straight-line code is interpreted.
-/

/-- Connectivity graph of Aspen-8, as recorded in the cell-3 output. -/
def aspen8Connectivity : List (Nat × List Nat) := [
  (0, [7]), (1, [2, 16]), (2, [1, 3, 15]), (3, [2, 4]), (4, [3, 5]),
  (5, [4, 6]), (6, [5, 7]), (7, [0, 6]), (10, [11, 17]), (11, [10, 12, 26]),
  (12, [11, 13, 25]), (13, [12]), (15, [2, 16]), (16, [1, 15, 17]),
  (17, [10, 16]), (20, [21, 27]), (21, [20, 22, 36]), (22, [21, 23, 35]),
  (23, [22, 24]), (24, [23, 25]), (25, [12, 24, 26]), (26, [11, 25, 27]),
  (27, [20, 26]), (30, [31, 37]), (31, [30, 32]), (32, [31, 33]),
  (33, [32, 34]), (34, [33, 35]), (35, [22, 34, 36]), (36, [21, 35, 37]),
  (37, [30, 36])]

/-- Device display name, as recorded (`device.name`). -/
def deviceName (arn : String) : String :=
  if arn = rigettiArn then "Aspen-8"
  else if arn = ionqArn then "ionQdevice"
  else arn

/-- Recorded state of every observed task: each state() observation in the
saved outputs reads COMPLETED. -/
def recordedState (taskIdx : Nat) : String :=
  match taskIdx with
  | _ => "COMPLETED"

/-- Recorded measurement counters of the three tasks, in submission order,
as printed in the saved outputs of cells 6, 9 and 12. -/
def recordedCounts : Nat → List (String × Nat)
  | 0 => [("111", 27), ("000", 16), ("110", 13), ("010", 13), ("100", 9),
          ("101", 9), ("001", 7), ("011", 6)]
  | 1 => [("0001", 48), ("0101", 20), ("0111", 14), ("0000", 5), ("1001", 3),
          ("0011", 3), ("0110", 3), ("0100", 2), ("1000", 1), ("0010", 1)]
  | _ => [("101", 57), ("000", 40), ("100", 1), ("110", 1), ("001", 1)]

/-- Recorded compiled programs of the two Rigetti tasks (the IonQ result
carries none and the notebook never asks for one). -/
def recordedCompiled : Nat → Option String
  | 0 => some ("DECLARE ro BIT[3]\nPRAGMA INITIAL_REWIRING \"PARTIAL\"\nRESET\n" ++
      "RZ(pi) 15\nRZ(-pi/2) 16\nRX(-pi/2) 16\nXY(pi) 16 15\nRZ(-pi/2) 16\n" ++
      "RX(-pi/2) 16\nRZ(pi/2) 16\nXY(pi) 16 15\nRZ(-pi/2) 1\nRX(pi/2) 1\n" ++
      "CZ 1 16\nRX(-pi/2) 1\nRZ(pi/2) 1\nRX(-pi/2) 15\nRZ(pi) 16\n" ++
      "MEASURE 1 ro[2]\nMEASURE 15 ro[1]\nMEASURE 16 ro[0]\n")
  | 1 => some ("DECLARE ro BIT[4]\nPRAGMA INITIAL_REWIRING \"NAIVE\"\nRESET\n" ++
      "RZ(pi/2) 1\nRZ(pi) 2\nXY(pi) 1 2\nRZ(-pi/2) 1\nRX(-pi/2) 1\n" ++
      "RZ(pi/2) 1\nXY(pi) 1 2\nRZ(pi/2) 0\nRX(-pi/2) 2\nRX(pi) 3\n" ++
      "MEASURE 3 ro[3]\nMEASURE 2 ro[2]\nMEASURE 1 ro[1]\nMEASURE 0 ro[0]\n")
  | _ => none

/-- A single-quoted rendering, as Python repr produces for dict keys. -/
def quoted (s : String) : String := "\x27" ++ s ++ "\x27"

/-- Rendering of the connectivity dict, matching the recorded output shape
(keys and neighbour lists are quoted strings in the recorded JSON). -/
def reprGraph (g : List (Nat × List Nat)) : String :=
  "\x7b" ++ String.intercalate ", " (g.map fun qn =>
      quoted (toString qn.fst) ++ ": [" ++
      String.intercalate ", " (qn.snd.map fun n => quoted (toString n)) ++ "]") ++
  "\x7d"

/-- Rendering of a measurement Counter, matching the recorded output shape. -/
def reprCounter (m : List (String × Nat)) : String :=
  "Counter(\x7b" ++ String.intercalate ", " (m.map fun kv =>
      quoted kv.fst ++ ": " ++ toString kv.snd) ++ "\x7d)"

/-- Everything device.run receives at submission time: the data the external
service acts on for one task. -/
structure Submission where
  deviceArn : String
  circuit : Circuit
  s3 : String × String
  shots : Nat
  disableQubitRewiring : Bool
deriving DecidableEq, Repr

/-- Runtime values bound to the notebook's variables. -/
inductive Value
  | str (s : String)
  | pair (a b : Value)
  | device (arn : String)
  | circuit (c : Circuit)
  | task (idx : Nat) (sub : Submission)
  | result (idx : Nat)
  | counts (m : List (String × Nat))
  | graph (g : List (Nat × List Nat))
deriving DecidableEq

/-- Side effects of the notebook's own code.  `fileWrite` is available in the
model but the interpreter never emits it: the notebook's code only prints. -/
inductive Effect
  | consolePrint (text : String)
  | fileWrite (path text : String)
deriving DecidableEq

/-- Execution state: variable environment (newest binding first, as
rebinding shadows), submissions made so far in order, console effects in
order, and every task status string observed so far. -/
structure ExecState where
  env : List (String × Value)
  subs : List Submission
  effects : List Effect
  statesSeen : List String

/-- Variable lookup (newest binding wins). -/
def lookupVar : List (String × Value) → String → Option Value
  | [], _ => none
  | (y, v) :: rest, x => if y = x then some v else lookupVar rest x

/-- Variable (re)binding. -/
def setVar (e : List (String × Value)) (x : String) (v : Value) :
    List (String × Value) :=
  (x, v) :: e

/-- Record one console print. -/
def emit (st : ExecState) (text : String) : ExecState :=
  { st with effects := st.effects ++ [Effect.consolePrint text] }

/-- One step of the notebook against the recorded SDK responses.  `none`
models an uncaught exception: the notebook's code catches nothing, so any
failure propagates.  The control-flow constructors are never reached by the
notebook and are left unmodelled. -/
def execStmt (st : ExecState) : Stmt → Option ExecState
  | .importStmt _ _ => some st
  | .assignStr x s => some { st with env := setVar st.env x (.str s) }
  | .assignPair x a b =>
      match lookupVar st.env a, lookupVar st.env b with
      | some va, some vb => some { st with env := setVar st.env x (.pair va vb) }
      | _, _ => none
  | .assignDevice x arn => some { st with env := setVar st.env x (.device arn) }
  | .assignAttr x obj path =>
      match lookupVar st.env obj with
      | some (.device arn) =>
          if arn = rigettiArn &&
             path = ["properties", "paradigm", "connectivity", "connectivityGraph"]
          then some { st with env := setVar st.env x (.graph aspen8Connectivity) }
          else none
      | _ => none
  | .printConnectivity dv gv =>
      match lookupVar st.env dv, lookupVar st.env gv with
      | some (.device arn), some (.graph g) =>
          some (emit st ("the connectivity of " ++ deviceName arn ++ " is: " ++
            reprGraph g))
      | _, _ => none
  | .assignNewCircuit x =>
      some { st with env := setVar st.env x (.circuit Circuit.init) }
  | .buildCircuit x calls =>
      match lookupVar st.env x with
      | some (.circuit c) =>
          some { st with env := setVar st.env x (.circuit (applyCalls c calls)) }
      | _ => none
  | .printCircuit x =>
      match lookupVar st.env x with
      | some (.circuit c) => some (emit st c.diagram)
      | _ => none
  | .assignRun lhs dv cv sv shots dqr =>
      match lookupVar st.env dv, lookupVar st.env cv, lookupVar st.env sv with
      | some (.device arn), some (.circuit c), some (.pair (.str a) (.str b)) =>
          let idx := st.subs.length
          let sub : Submission := ⟨arn, c, (a, b), shots, dqr⟩
          some { st with env := setVar st.env lhs (.task idx sub),
                         subs := st.subs ++ [sub] }
      | _, _, _ => none
  | .printState tv =>
      match lookupVar st.env tv with
      | some (.task i _) =>
          some { emit st ("Status of task: " ++ recordedState i) with
                 statesSeen := st.statesSeen ++ [recordedState i] }
      | _ => none
  | .assignResult lhs tv =>
      match lookupVar st.env tv with
      | some (.task i _) => some { st with env := setVar st.env lhs (.result i) }
      | _ => none
  | .assignCounts lhs rv =>
      match lookupVar st.env rv with
      | some (.result i) =>
          some { st with env := setVar st.env lhs (.counts (recordedCounts i)) }
      | _ => none
  | .printCounts cv =>
      match lookupVar st.env cv with
      | some (.counts m) =>
          some (emit st ("Measurement counts: " ++ reprCounter m))
      | _ => none
  | .printCompiled rv =>
      match lookupVar st.env rv with
      | some (.result i) =>
          match recordedCompiled i with
          | some p => some (emit st ("The compiled circuit is:\n " ++ p))
          | none => none
      | _ => none
  | .tryExcept _ _ => none
  | .ifStmt _ _ _ => none
  | .whileLoop _ _ => none
  | .assertStmt _ => none
  | .taskCancel _ => none

/-- Run a statement list in order; an uncaught failure aborts the run. -/
def execProg : ExecState → List Stmt → Option ExecState
  | st, [] => some st
  | st, s :: rest =>
      match execStmt st s with
      | none => none
      | some st2 => execProg st2 rest

/-- The full execution of the notebook from an empty environment, against
the recorded SDK responses. -/
def notebookRun : Option ExecState := execProg ⟨[], [], [], []⟩ notebook

/-
  Claim-analysis helpers.
-/

/-- True for Python control-flow / error-handling statement forms: try-except
handlers, conditional validation branches, retry loops, assertions. -/
def Stmt.isControl : Stmt → Bool
  | .tryExcept _ _ => true
  | .ifStmt _ _ _ => true
  | .whileLoop _ _ => true
  | .assertStmt _ => true
  | _ => false

/-- True when the statement binds or mutates the named variable. -/
def assignsVar (x : String) : Stmt → Bool
  | .assignStr lhs _ => lhs == x
  | .assignPair lhs _ _ => lhs == x
  | .assignDevice lhs _ => lhs == x
  | .assignAttr lhs _ _ => lhs == x
  | .assignNewCircuit lhs => lhs == x
  | .buildCircuit v _ => v == x
  | .assignRun lhs _ _ _ _ _ => lhs == x
  | .assignResult lhs _ => lhs == x
  | .assignCounts lhs _ => lhs == x
  | _ => false

/-- Variables bound to task handles by device.run assignments. -/
def taskVars (l : List Stmt) : List String :=
  l.filterMap fun s =>
    match s with
    | .assignRun lhs _ _ _ _ _ => some lhs
    | _ => none

/-- True when the statement operates on the named task variable (observing
its state, fetching its result, or cancelling it). -/
def usesTaskVar (tv : String) : Stmt → Bool
  | .printState t => t == tv
  | .assignResult _ t => t == tv
  | .taskCancel t => t == tv
  | _ => false

/-- True for the two read-only task operations the lifecycle allows the
client: state() observation and result() fetch. -/
def Stmt.isTaskObservation : Stmt → Bool
  | .printState _ => true
  | .assignResult _ _ => true
  | _ => false

/-- The index and device/circuit/s3 variables of the device.run assignment
binding the given task variable. -/
def runInfo (tv : String) : Option (Nat × String × String × String) :=
  notebook.enum.findSome? fun is =>
    match is.snd with
    | .assignRun lhs dv cv sv _ _ =>
        if lhs == tv then some (is.fst, dv, cv, sv) else none
    | _ => none

/-- Largest notebook index strictly below `bound` whose statement satisfies
the predicate. -/
def lastIdxBefore (p : Stmt → Bool) (bound : Nat) : Option Nat :=
  ((notebook.enum.filter fun is => decide (is.fst < bound) && p is.snd).map
    Prod.fst).getLast?

/-- Smallest notebook index strictly above `bound` whose statement satisfies
the predicate. -/
def firstIdxAfter (p : Stmt → Bool) (bound : Nat) : Option Nat :=
  ((notebook.enum.filter fun is => decide (bound < is.fst) && p is.snd).map
    Prod.fst).head?

/-- The notebook indices of the six steps of the QPU example that submits
task `tv`: parameter entry (the s3_folder pair assignment), instantiation of
the device the run uses (the last such assignment before the run),
construction of the circuit the run uses (the last fluent chain before the
run), the device.run submission itself, the status poll (the printed state()
check on the task), and the result prints (the first measurement-counts
print after the task's result() fetch). -/
def stepIdxs (tv : String) :
    Option (Nat × Nat × Nat × Nat × Nat × Nat) := do
  let (runIdx, dv, cv, _) ← runInfo tv
  let paramIdx ← notebook.findIdx? fun s =>
    match s with
    | .assignPair x _ _ => x == "s3_folder"
    | _ => false
  let devIdx ← lastIdxBefore (fun s =>
    match s with
    | .assignDevice x _ => x == dv
    | _ => false) runIdx
  let cirIdx ← lastIdxBefore (fun s =>
    match s with
    | .buildCircuit x _ => x == cv
    | _ => false) runIdx
  let pollIdx ← firstIdxAfter (fun s =>
    match s with
    | .printState t => t == tv
    | _ => false) runIdx
  let fetchIdx ← firstIdxAfter (fun s =>
    match s with
    | .assignResult _ t => t == tv
    | _ => false) runIdx
  let printIdx ← firstIdxAfter (fun s =>
    match s with
    | .printCounts _ => true
    | _ => false) fetchIdx
  some (paramIdx, devIdx, cirIdx, runIdx, pollIdx, printIdx)

/-- The task variables of the notebook's three QPU examples, in order. -/
def exampleTasks : List String := ["rigetti_rewiring", "rigetti_task", "ionq_task"]

/-- The claim's fixed step order for one example: parameter entry, then
device instantiation, then circuit construction, then submission, then the
status poll, then the result prints, each step present. -/
def stepsInOrder (tv : String) : Bool :=
  match stepIdxs tv with
  | some (p, d, c, r, s, pr) =>
      decide (p < d) && decide (d < c) && decide (c < r) &&
      decide (r < s) && decide (s < pr)
  | none => false

/-- The claimed fixed step order, over all three QPU examples. -/
def allStepsInOrder : Bool := exampleTasks.all stepsInOrder

/-- The amended step order for one example: parameter entry, device
instantiation and circuit construction each precede the submission (but not
in a fixed relative order), and submission precedes the status poll, which
precedes the result prints. -/
def stepsAmendedOrder (tv : String) : Bool :=
  match stepIdxs tv with
  | some (p, d, c, r, s, pr) =>
      decide (p < r) && decide (d < r) && decide (c < r) &&
      decide (r < s) && decide (s < pr)
  | none => false

/-- The s3_folder pair entered in cell 2. -/
def s3FolderPair : String × String :=
  ("amazon-braket-Your-Bucket-Name", "Your-Folder-Name")

/-- Every device.run statement names s3_folder as its storage argument. -/
def allRunsUseS3Folder : Bool :=
  notebook.all fun s =>
    match s with
    | .assignRun _ _ _ sv _ _ => sv == "s3_folder"
    | _ => true

/-- All three submissions carried the same s3 pair, unmodified. -/
def submissionsShareS3 : Bool :=
  match notebookRun with
  | some st =>
      (st.subs.length == 3) &&
      st.subs.all fun sub => decide (sub.s3 = s3FolderPair)
  | none => false

/-- True for console-print effects. -/
def Effect.isConsolePrint : Effect → Bool
  | .consolePrint _ => true
  | _ => false

/-- The full run succeeds and produces only console prints. -/
def onlyConsoleOutput : Bool :=
  match notebookRun with
  | some st => st.effects.all Effect.isConsolePrint
  | none => false

/-- The full run succeeds and every console print is non-empty. -/
def runsCleanNonemptyPrints : Bool :=
  match notebookRun with
  | some st =>
      st.effects.all fun e =>
        match e with
        | .consolePrint t => !t.isEmpty
        | .fileWrite _ _ => false
  | none => false

/-- The task lifecycle states of the external service. -/
def lifecycleStates : List String := ["QUEUED", "RUNNING", "COMPLETED", "FAILED"]

/-- Every statement touching a task variable is a read-only observation
(state() check or result() fetch); nothing cancels or alters a task. -/
def tasksReadOnly : Bool :=
  (taskVars notebook).all fun tv =>
    notebook.all fun s => !(usesTaskVar tv s) || Stmt.isTaskObservation s

/-- Every task status the run observes is a lifecycle state. -/
def statesObservedInLifecycle : Bool :=
  match notebookRun with
  | some st => st.statesSeen.all fun s => lifecycleStates.contains s
  | none => false

/-- Total number of shots accounted for by a measurement counter. -/
def countsTotal (m : List (String × Nat)) : Nat := (m.map Prod.snd).sum

/-- Each of the three submissions asked for 100 shots and its recorded
counter sums to exactly that many. -/
def shotsAccounted : Bool :=
  match notebookRun with
  | some st =>
      (st.subs.length == 3) &&
      st.subs.enum.all fun isub =>
        (isub.snd.shots == 100) &&
        (countsTotal (recordedCounts isub.fst) == isub.snd.shots)
  | none => false

/-- True for the characters of a bitstring. -/
def isBitChar (c : Char) : Bool := c == '0' || c == '1'

/-- Each submission's circuit uses 3, 4 and 3 distinct qubits respectively,
and every key of its recorded counter is a bitstring of exactly that
length. -/
def keysAreBitstrings : Bool :=
  match notebookRun with
  | some st =>
      ((st.subs.map fun sub => (Circuit.qubits sub.circuit).length) == [3, 4, 3]) &&
      st.subs.enum.all fun isub =>
        (recordedCounts isub.fst).all fun kv =>
          (kv.fst.length == (Circuit.qubits isub.snd.circuit).length) &&
          kv.fst.toList.all isBitChar
  | none => false

/-- The GHZ circuit of cell 4, on qubits 0, 2, 4. -/
def ghzCircuit : Circuit := ⟨[.h 0, .cnot 0 2, .cnot 0 4]⟩

/-- The circuit of cell 7, on neighbouring qubits 0, 1, 2, 3. -/
def neighborCircuit : Circuit := ⟨[.rz 0 .halfPi, .cnot 1 2, .x 3]⟩

/-- The IonQ circuit of cell 10, on qubits 0, 1, 2. -/
def ionqCircuit : Circuit := ⟨[.h 0, .cnot 0 2, .rz 1 .onePointTwo]⟩

/-- The status a task handle reports. -/
def taskStateOf (v : Value) : Option String :=
  match v with
  | .task i _ => some (recordedState i)
  | _ => none

/-- The measurement counter a task handle's result carries. -/
def taskCountsOf (v : Value) : Option (List (String × Nat)) :=
  match v with
  | .task i _ => some (recordedCounts i)
  | _ => none

/-- After the whole notebook has run: each task handle still holds exactly
the device ARN, circuit and s3 pair captured at its device.run call; the
circuit and device variables have since been rebound to different data; and
the earlier tasks still report the recorded state and result. -/
def snapshotsImmutable : Bool :=
  match notebookRun with
  | some st =>
      decide (lookupVar st.env "rigetti_rewiring" =
        some (.task 0 ⟨rigettiArn, ghzCircuit, s3FolderPair, 100, false⟩)) &&
      decide (lookupVar st.env "rigetti_task" =
        some (.task 1 ⟨rigettiArn, neighborCircuit, s3FolderPair, 100, true⟩)) &&
      decide (lookupVar st.env "ionq_task" =
        some (.task 2 ⟨ionqArn, ionqCircuit, s3FolderPair, 100, false⟩)) &&
      decide (lookupVar st.env "circuit" = some (.circuit ionqCircuit)) &&
      decide (ionqCircuit ≠ ghzCircuit) &&
      decide (lookupVar st.env "device" = some (.device ionqArn)) &&
      decide (ionqArn ≠ rigettiArn) &&
      decide ((lookupVar st.env "rigetti_rewiring").bind taskStateOf =
        some (recordedState 0)) &&
      decide ((lookupVar st.env "rigetti_rewiring").bind taskCountsOf =
        some (recordedCounts 0)) &&
      decide ((lookupVar st.env "rigetti_task").bind taskCountsOf =
        some (recordedCounts 1))
  | none => false

/-
  Claim theorems.
-/

/-- C1 (counterexample): the claimed fixed order — parameter entry, then
device instantiation, then circuit construction, then device.run, then the
status poll, then the result prints — does not hold for every QPU example of
the notebook.  Concretely, in the IonQ example the device instantiation sits
at notebook index 29, after the circuit construction at index 28, so the
sequence is reordered there. -/
theorem qpu_example_fixed_step_order_cex :
    allStepsInOrder = false ∧
    stepIdxs "ionq_task" = some (5, 29, 28, 30, 31, 34) :=
  ⟨rfl, rfl⟩

/-- C1 (amended): every QPU example in the notebook performs parameter entry
(bucket name, folder prefix, device ARN), device instantiation, circuit
construction via fluent builder calls, submission via device.run, a blocking
status poll on the task, and print statements formatting the returned result
objects; parameter entry, device instantiation and circuit construction each
precede the submission, the submission precedes the status poll, and the
status poll precedes the result prints — but device instantiation and
circuit construction are not in a fixed relative order: the IonQ example
constructs its circuit before instantiating its device. -/
theorem qpu_example_amended_step_order :
    exampleTasks.all stepsAmendedOrder = true := rfl

/-- C2: the notebook's own code contains no validation branch, no exception
handler, no assertion and no retry or recovery loop: none of its statements
is a control-flow or error-handling form, so any failure raised by an
external SDK call propagates uncaught. -/
theorem no_validation_no_handlers_no_retry :
    notebook.all (fun s => !(Stmt.isControl s)) = true := rfl

/-- C3: each fluent builder call (h, cnot, rz, x) appends exactly one gate
record to the end of the circuit's sequence and returns the circuit, so a
chain such as circuit.h(q).cnot(q,a).cnot(q,b) yields exactly those records
in call order. -/
theorem fluent_builder_appends_in_call_order (c : Circuit) (q a b : Nat)
    (ang : Angle) :
    (c.h q).gates = c.gates ++ [Gate.h q] ∧
    (c.cnot a b).gates = c.gates ++ [Gate.cnot a b] ∧
    (c.rz q ang).gates = c.gates ++ [Gate.rz q ang] ∧
    (c.x q).gates = c.gates ++ [Gate.x q] ∧
    (((Circuit.init.h q).cnot q a).cnot q b).gates =
      [Gate.h q, Gate.cnot q a, Gate.cnot q b] :=
  ⟨rfl, rfl, rfl, rfl, rfl⟩

/-- Witness for C3 at the notebook's own GHZ chain circuit.h(0).cnot(0,2).cnot(0,4). -/
theorem fluent_builder_appends_witness :
    (Circuit.init.h 0).gates = Circuit.init.gates ++ [Gate.h 0] ∧
    (Circuit.init.cnot 2 4).gates = Circuit.init.gates ++ [Gate.cnot 2 4] ∧
    (Circuit.init.rz 0 Angle.halfPi).gates =
      Circuit.init.gates ++ [Gate.rz 0 Angle.halfPi] ∧
    (Circuit.init.x 0).gates = Circuit.init.gates ++ [Gate.x 0] ∧
    (((Circuit.init.h 0).cnot 0 2).cnot 0 4).gates =
      [Gate.h 0, Gate.cnot 0 2, Gate.cnot 0 4] :=
  fluent_builder_appends_in_call_order Circuit.init 0 2 4 Angle.halfPi

/-- C4: the s3_folder pair is constructed by exactly one statement of the
notebook (the cell-2 parameter entry), every device.run statement passes the
variable s3_folder, and all three submissions carry the identical unmodified
(bucket, prefix) pair. -/
theorem s3_folder_single_construction_shared :
    (notebook.countP (assignsVar "s3_folder") = 1) ∧
    allRunsUseS3Folder = true ∧
    submissionsShareS3 = true :=
  ⟨rfl, rfl, rfl⟩

/-- C5: executing the whole notebook against the recorded SDK responses
produces only console-print effects — no file write and no other output form
owned by the repository. -/
theorem only_console_print_effects : onlyConsoleOutput = true := rfl

/-- C6: every statement of every code cell executes without an uncaught
failure (the run reaches the end, given the external SDK and cloud service
respond as recorded), and every printed output is non-empty. -/
theorem cells_execute_and_prints_nonempty : runsCleanNonemptyPrints = true := rfl

/-- C7: every statement touching a task handle only observes it — a state()
check or a result() fetch, never a cancellation or any other mutation — and
every task status the run observes is a value of the external lifecycle
(QUEUED, RUNNING, COMPLETED, FAILED). -/
theorem tasks_observed_read_only_in_lifecycle :
    tasksReadOnly = true ∧ statesObservedInLifecycle = true :=
  ⟨rfl, rfl⟩

/-- C8: each of the three tasks was submitted with shots=100 and the integer
values of its recorded measurement counter sum to exactly those 100 shots. -/
theorem measurement_counts_sum_to_shots : shotsAccounted = true := rfl

/-- C9: every key of every recorded measurement counter is a bitstring over
0/1 whose length equals the number of distinct qubit indices of the
submitted circuit — 3 for the GHZ circuit on qubits 0,2,4, then 4 for the
circuit on qubits 0,1,2,3, then 3 for the IonQ circuit on qubits 0,1,2. -/
theorem count_keys_are_bitstrings_of_circuit_width : keysAreBitstrings = true := rfl

/-- C10: device.run captures its circuit and device at submission time: after
the whole notebook has run, each task handle still holds exactly the device
ARN, circuit and s3 pair captured at its device.run call, even though the
circuit and device variables were later rebound to different data, and the
earlier tasks still report the state and measurement counts recorded for the
circuit and device as they were at submission. -/
theorem run_captures_circuit_and_device_at_submission :
    snapshotsImmutable = true := rfl
